import Mathlib

/-!
Shallow embedding of the IndiaSpend-Chatbot repository (src/bot.py and
src/tools.py) and proofs of its specified properties.

External services (the chat-completion LLM, the vector store, the HTTP feed)
are modelled as oracles passed in explicitly; every invocation of the
generation service is counted by threading a call counter, so claims about
"exactly one call" or "no call" are statable.
-/

namespace IndiaSpend

/-! ## Order-preserving deduplication (src/bot.py line 50: `list(dict.fromkeys(source_links))`)

`dict.fromkeys` inserts keys in iteration order and skips keys already
present, so the resulting key list keeps the first occurrence of each value
in first-occurrence order.  `dedupAux seen l` processes `l`, skipping
elements already in `seen`. -/

def dedupAux : List String → List String → List String
  | _, [] => []
  | seen, x :: xs => if x ∈ seen then dedupAux seen xs else x :: dedupAux (x :: seen) xs

/-- `list(dict.fromkeys(source_links))` from `RAGTool.retrieve`. -/
def dedupSources (l : List String) : List String := dedupAux [] l

/-! ## Substring containment (Python's `needle in haystack` on strings) -/

def containsSub : List Char → List Char → Bool
  | n, [] => n.isEmpty
  | n, c :: t => n.isPrefixOf (c :: t) || containsSub n t

/-- Python `needle in hay` for strings: `needle` occurs contiguously in `hay`. -/
def containsSubstr (needle hay : String) : Bool := containsSub needle.data hay.data

/-! ## src/tools.py -/

/-- A feed article as consumed by `generate_questions_batch`: the code reads
the keys `heading`, `description`, `story` with `dict.get` defaults, so each
field is optional. -/
structure Article where
  heading : Option (String)
  description : Option (String)
  story : Option (String)
deriving DecidableEq, Inhabited

def Article.title (a : Article) : String := a.heading.getD "Untitled Article"

def Article.descr (a : Article) : String := a.description.getD "No description available."

def Article.storyText (a : Article) : String := a.story.getD "No story content available."

def isWordChar (c : Char) : Bool := c.isAlphanum || c == '_'

/-- `re.findall(r'\b\w+\b', text)`: the maximal runs of word characters. -/
def findWords (s : String) : List String :=
  ((s.data.splitOnP (fun c => !isWordChar c)).filter (fun w => !w.isEmpty)).map
    (fun w => String.mk w)

/-- `list(set(re.findall(...)))[:10]`.  Python's `set` iteration order is
unspecified (hash-based); it is modelled deterministically as
first-occurrence order, which no claim depends on. -/
def keywordsOf (a : Article) : List String :=
  (dedupSources (findWords (a.descr ++ " " ++ (a.storyText).toLower))).take 10

/-- The per-article section of the batch prompt built in
`generate_questions_batch` (the f-string at src/tools.py lines 32-48,
including the triple-quoted indentation). -/
def articleSection (i : Nat) (a : Article) : String :=
  "\n        Article " ++ toString (i + 1) ++ ":" ++
  "\n        Title: " ++ a.title ++
  "\n        Description: " ++ a.descr ++
  "\n        Story Excerpt: " ++ (a.storyText).take 500 ++ "... (truncated for brevity)" ++
  "\n        Keywords: " ++ String.intercalate ", " (keywordsOf a) ++
  "\n        Generate two concise, specific questions (under 60 characters) that users are likely to ask." ++
  "\n        Make sure the questions:" ++
  "\n        1. Use keywords directly from the article." ++
  "\n        2. Focus on actionable or data-driven information." ++
  "\n        3. Reflect issues or events discussed in the article." ++
  "\n        4. Do not include article labels (e.g., \"**Article X:**\")." ++
  "\n        5. Remove any bullet points (e.g., \"-\") from the questions." ++
  "\n        6. Return the questions in a shuffled order." ++
  "\n        7. Do not include empty questions or strings." ++
  "\n        Do not number the questions." ++
  "\n        "

/-- `batch_prompt = "\n".join(input_prompts)`: the combined prompt for the
whole batch of articles. -/
def batchPrompt (articles : List Article) : String :=
  String.intercalate "\n" (articles.enum.map (fun p => articleSection p.1 p.2))

/-- The generation service used by src/tools.py, as an oracle: the `k`-th
invocation on a given prompt either raises (`Except.error` carries the
exception text) or returns the reply content. -/
structure GenLLM where
  respond : Nat → String → Except String String

/-- `generate_questions_batch` (src/tools.py lines 9-70).  Returns the
cleaned question list together with the next call-counter value; the counter
increases by one for the single `llm.invoke` attempt, whether it raises or
returns.  The `try` block catches every exception and returns `[]`. -/
def generate_questions_batch (m : GenLLM) (k : Nat) (articles : List Article) :
    List String × Nat :=
  let prompt := batchPrompt articles
  match m.respond k prompt with
  | Except.error _ => ([], k + 1)
  | Except.ok content =>
      ((((content.trim).splitOn "\n").map String.trim).filter (fun q => !(q == "")), k + 1)

/-- Outcome of the feed request in `fetch_questions_on_latest_articles_in_IndiaSpend`:
either some step of `requests.get` / `raise_for_status` / `json()` raised a
`RequestException` (carrying the exception text), or a JSON object was
obtained whose optional `news` field is a list of articles. -/
inductive FeedOutcome where
  | failure (msg : String)
  | success (news : Option (List Article))
deriving DecidableEq

/-- The dict returned by `fetch_questions_on_latest_articles_in_IndiaSpend`:
always exactly one key, either `"error"` with a message or `"questions"`
with a list. -/
inductive FetchResult where
  | error (msg : String)
  | questions (qs : List String)
deriving DecidableEq

/-- `fetch_questions_on_latest_articles_in_IndiaSpend` (src/tools.py lines
72-107).  Besides the returned dict, the result records the list of article
batches passed to `generate_questions_batch` (so "generation was not
invoked" is `= []`) and the final generation-call counter. -/
def fetch_questions_on_latest_articles_in_IndiaSpend
    (outcome : FeedOutcome) (m : GenLLM) (k : Nat) :
    FetchResult × List (List Article) × Nat :=
  match outcome with
  | FeedOutcome.failure e => (FetchResult.error ("Failed to fetch articles: " ++ e), [], k)
  | FeedOutcome.success news =>
      let articles := news.getD []
      if articles.isEmpty then (FetchResult.questions [], [], k)
      else
        let articles10 := articles.take 10
        let r := generate_questions_batch m k articles10
        (FetchResult.questions (r.1.take 20), [articles10], r.2)

/-! ## src/bot.py -/

/-- Message roles used by the chatbot (SystemMessage, HumanMessage, AIMessage). -/
inductive Role where
  | system
  | human
  | ai
deriving DecidableEq, Inhabited

/-- A LangChain-style message: role, text content, and the list of attached
tool-call requests (`AIMessage(content=...)` attaches none). -/
structure Message where
  role : Role
  content : String
  tool_calls : List String
deriving DecidableEq, Inhabited

def humanMsg (s : String) : Message := ⟨Role.human, s, []⟩

def aiMsg (s : String) : Message := ⟨Role.ai, s, []⟩

/-- `Chatbot.system_message` (src/bot.py lines 66-73). -/
def systemMessage : Message :=
  ⟨Role.system,
   "You are IndiaSpend AI, an expert chatbot designed to answer questions related to IndiaSpend articles, reports, and data analysis. " ++
   "Your responses should be fact-based, sourced from IndiaSpend\x27s database, and align with IndiaSpend\x27s journalistic style. " ++
   "You should provide clear, well-structured answers and cite sources where applicable. " ++
   "Website: [IndiaSpend](https://www.indiaspend.com/).",
   []⟩

/-- A retrieved document: only its `metadata['source']` field matters here,
and it may be absent. -/
structure Doc where
  source : Option (String)
deriving DecidableEq

/-- `doc.metadata.get('source', 'No source')`. -/
def Doc.sourceLink (d : Doc) : String := d.source.getD "No source"

/-- The dict returned by `RAGTool.retrieve`. -/
structure RetrievalResult where
  result : String
  sources : List String
deriving DecidableEq

namespace RAGTool

/-- `RAGTool.retrieve` (src/bot.py lines 36-55), parametrised by what the
external services return: `similar` are the retriever's documents, and the
QA chain returned the dict `{'result': chainResult, 'source_documents': chainDocs}`.
Source links from both are collected and deduplicated preserving order. -/
def retrieve (similar : List Doc) (chainResult : String) (chainDocs : List Doc) :
    RetrievalResult :=
  ⟨chainResult,
   dedupSources (similar.map Doc.sourceLink ++ chainDocs.map Doc.sourceLink)⟩

end RAGTool

/-- The chat-completion service used by src/bot.py, as an oracle: the `k`-th
invocation on a given message list returns a reply content string. -/
structure ChatLLM where
  respond : Nat → List Message → String

/-- Python `str.lower()`, modelled character-wise. -/
def strLower (s : String) : String := String.mk (s.data.map Char.toLower)

/-- The classification prompt built in `Chatbot.should_use_rag` (src/bot.py line 85). -/
def decisionPrompt (query : String) : String :=
  "Does this query require retrieving external information to answer accurately? Answer only \x27yes\x27 or \x27no\x27. Query: " ++ query

/-- `Chatbot.should_use_rag` (src/bot.py lines 84-87): one LLM call, then
`"yes" in decision.content.lower()`.  Also returns the next call counter. -/
def should_use_rag (m : ChatLLM) (k : Nat) (query : String) : Bool × Nat :=
  (containsSubstr "yes" (strLower (m.respond k [systemMessage, humanMsg (decisionPrompt query)])),
   k + 1)

/-- The augmented prompt built in the RAG branch of `Chatbot.call_model`
(src/bot.py lines 102-107). -/
def augmentedPrompt (query resultText : String) : String :=
  "Question: " ++ query ++ "\n\n" ++ ("Context: " ++ resultText) ++ "\n\n" ++
  "Provide a detailed response using IndiaSpend\x27s reporting style, ensuring accuracy and data-backed insights."

/-- `messages[-1].content`; Python would raise on an empty history, modelled
as `""` (no claim concerns an empty history). -/
def lastQuery (msgs : List Message) : String :=
  ((msgs.getLast?).map Message.content).getD ""

/-- `Chatbot.call_model` (src/bot.py lines 89-115), parametrised by the LLM
oracle `m`, the retrieval component `rag` (standing for
`self.rag_tool.retrieve`, whose external services are opaque), the current
LLM call counter `k` and the conversation state.  Returns the emitted
message list (always one `AIMessage`) and the next call counter. -/
def call_model (m : ChatLLM) (rag : String → RetrievalResult) (k : Nat)
    (msgs : List Message) : List Message × Nat :=
  let query := lastQuery msgs
  let d := should_use_rag m k query
  if d.1 then
    let ragResult := rag query
    let resp := m.respond d.2 [systemMessage, humanMsg (augmentedPrompt query ragResult.result)]
    ([aiMsg (resp ++ "\n\nSources:\n" ++ String.intercalate "\n" ragResult.sources)], d.2 + 1)
  else
    let resp := m.respond d.2 (systemMessage :: msgs)
    ([aiMsg resp], d.2 + 1)

/-- Content of the single reply message emitted by `call_model`. -/
def replyOf (m : ChatLLM) (rag : String → RetrievalResult) (k : Nat)
    (msgs : List Message) : String :=
  ((call_model m rag k msgs).1.headD (aiMsg "")).content

/-- `Chatbot.router_function` (src/bot.py lines 117-120):
`"tools" if getattr(last_message, 'tool_calls', None) else END`.
`true` stands for the `"tools"` edge, `false` for `END`. -/
def router_function (msgs : List Message) : Bool :=
  match msgs.getLast? with
  | some msg => !msg.tool_calls.isEmpty
  | none => false

/-- Nodes of the compiled graph (src/bot.py lines 122-137): the two named
nodes plus the terminal END state. -/
inductive Node where
  | agent
  | tools
  | done
deriving DecidableEq

structure GraphState where
  node : Node
  messages : List Message
  counter : Nat

/-- One step of the compiled `StateGraph`: `agent` runs `call_model`,
appends the emitted messages (the `MessagesState` reducer), and routes via
`router_function`; the `tools` node would execute pending tool calls and
return to `agent`; `done` (END) is terminal. -/
def graphStep (m : ChatLLM) (rag : String → RetrievalResult) (s : GraphState) :
    GraphState :=
  match s.node with
  | Node.agent =>
      let r := call_model m rag s.counter s.messages
      let msgs := s.messages ++ r.1
      ⟨if router_function msgs then Node.tools else Node.done, msgs, r.2⟩
  | Node.tools => ⟨Node.agent, s.messages, s.counter⟩
  | Node.done => s

/-! ## Concrete oracles used to instantiate the theorems on sample runs -/

/-- A chat LLM that always answers with a reply that itself starts with
the text "Sources:". -/
def cexLLM : ChatLLM := ⟨fun _ _ => "Sources:\nexample.com"⟩

/-- A chat LLM answering "yes" to the first call and "answer" afterwards. -/
def yesLLM : ChatLLM := ⟨fun k _ => if k == 0 then "yes" else "answer"⟩

/-- A chat LLM that always answers "no". -/
def noLLM : ChatLLM := ⟨fun _ _ => "no"⟩

/-- A retrieval component returning a fixed answer and no sources. -/
def emptyRag : String → RetrievalResult := fun _ => ⟨"ctx", []⟩

/-- A generation service that always raises. -/
def genErrLLM : GenLLM := ⟨fun _ _ => Except.error "boom"⟩

/-- A generation service that always returns two question lines. -/
def genOkLLM : GenLLM := ⟨fun _ _ => Except.ok "Q1\nQ2"⟩

/-- A feed article with all three fields absent. -/
def blankArticle : Article := ⟨none, none, none⟩

end IndiaSpend

namespace IndiaSpend

/-! ## Lemmas about the order-preserving deduplication -/

theorem dedupAux_congr (l : List String) :
    ∀ s₁ s₂ : List String, (∀ a, a ∈ s₁ ↔ a ∈ s₂) → dedupAux s₁ l = dedupAux s₂ l := by
  induction l with
  | nil => intro s₁ s₂ _; rfl
  | cons x xs ih =>
      intro s₁ s₂ h
      simp only [dedupAux]
      by_cases hx : x ∈ s₁
      · rw [if_pos hx, if_pos ((h x).mp hx), ih s₁ s₂ h]
      · rw [if_neg hx, if_neg (fun hc => hx ((h x).mpr hc)),
          ih (x :: s₁) (x :: s₂) (fun a => by
            simp only [List.mem_cons]; exact or_congr Iff.rfl (h a))]

theorem mem_dedupAux (a : String) (l : List String) :
    ∀ seen, a ∈ dedupAux seen l ↔ a ∈ l ∧ a ∉ seen := by
  induction l with
  | nil => intro seen; simp [dedupAux]
  | cons x xs ih =>
      intro seen
      simp only [dedupAux]
      by_cases hx : x ∈ seen
      · rw [if_pos hx]
        rw [ih seen]
        simp only [List.mem_cons]
        constructor
        · rintro ⟨ha, hn⟩; exact ⟨Or.inr ha, hn⟩
        · rintro ⟨ha, hn⟩
          rcases ha with h | h
          · exact absurd (h ▸ hx) hn
          · exact ⟨h, hn⟩
      · rw [if_neg hx]
        simp only [List.mem_cons, ih (x :: seen)]
        constructor
        · rintro (rfl | ⟨ha, hn⟩)
          · exact ⟨Or.inl rfl, hx⟩
          · exact ⟨Or.inr ha, fun hc => hn (Or.inr hc)⟩
        · rintro ⟨rfl | ha, hn⟩
          · exact Or.inl rfl
          · by_cases hax : a = x
            · exact Or.inl hax
            · exact Or.inr ⟨ha, fun hc => (by
                rcases hc with h | h
                · exact hax h
                · exact hn h)⟩

theorem dedupAux_sublist (l : List String) : ∀ seen, (dedupAux seen l).Sublist l := by
  induction l with
  | nil => intro seen; exact List.Sublist.refl []
  | cons x xs ih =>
      intro seen
      simp only [dedupAux]
      by_cases hx : x ∈ seen
      · rw [if_pos hx]; exact (ih seen).trans (List.sublist_cons_self x xs)
      · rw [if_neg hx]; exact (ih (x :: seen)).cons₂ x

theorem nodup_dedupAux (l : List String) : ∀ seen, (dedupAux seen l).Nodup := by
  induction l with
  | nil => intro _; exact List.nodup_nil
  | cons x xs ih =>
      intro seen
      simp only [dedupAux]
      by_cases hx : x ∈ seen
      · rw [if_pos hx]; exact ih seen
      · rw [if_neg hx]
        refine List.nodup_cons.mpr ⟨?_, ih (x :: seen)⟩
        intro hmem
        exact ((mem_dedupAux x xs (x :: seen)).mp hmem).2 (List.mem_cons_self x seen)

theorem dedupAux_cons_seen (l : List String) :
    ∀ (seen : List String) (x : String),
      dedupAux (x :: seen) l = dedupAux seen (l.filter (fun y => !(y == x))) := by
  induction l with
  | nil => intro seen x; rfl
  | cons y ys ih =>
      intro seen x
      by_cases hyx : y = x
      · subst hyx
        rw [List.filter_cons_of_neg (by simp)]
        simp only [dedupAux]
        rw [if_pos (List.mem_cons_self y seen), ih seen y]
      · rw [List.filter_cons_of_pos (by simp [hyx])]
        simp only [dedupAux]
        by_cases hys : y ∈ seen
        · rw [if_pos (List.mem_cons_of_mem x hys), if_pos hys, ih seen x]
        · have hnot : y ∉ x :: seen := by
            intro hc
            rcases List.mem_cons.mp hc with h | h
            · exact hyx h
            · exact hys h
          rw [if_neg hnot, if_neg hys]
          rw [dedupAux_congr ys (y :: x :: seen) (x :: y :: seen) (fun a => by
            simp only [List.mem_cons]; tauto)]
          rw [ih (y :: seen) x]

theorem dedupSources_nodup (l : List String) : (dedupSources l).Nodup :=
  nodup_dedupAux l []

theorem mem_dedupSources (a : String) (l : List String) :
    a ∈ dedupSources l ↔ a ∈ l := by
  rw [dedupSources, mem_dedupAux]
  simp

theorem dedupSources_sublist (l : List String) : (dedupSources l).Sublist l :=
  dedupAux_sublist l []

theorem dedupSources_cons (x : String) (xs : List String) :
    dedupSources (x :: xs) = x :: dedupSources (xs.filter (fun y => !(y == x))) := by
  show dedupAux [] (x :: xs) = _
  simp only [dedupAux]
  rw [if_neg (List.not_mem_nil x), dedupAux_cons_seen xs [] x]
  rfl

/-! ## Lemmas about substring containment -/

theorem isPrefixOf_self (l : List Char) : l.isPrefixOf l = true := by
  induction l with
  | nil => rfl
  | cons c t ih => simp [List.isPrefixOf, ih]

theorem containsSub_self (n : List Char) : containsSub n n = true := by
  cases n with
  | nil => rfl
  | cons c t => simp [containsSub, isPrefixOf_self]

theorem containsSub_append (n : List Char) :
    ∀ pre : List Char, containsSub n (pre ++ n) = true := by
  intro pre
  induction pre with
  | nil => simpa using containsSub_self n
  | cons p ps ih => simp [containsSub, ih]

/-! ## Claim theorems for src/tools.py and the deduplication -/

/-- **C1**: the deduplication step of `RAGTool.retrieve`
(`list(dict.fromkeys(source_links))`) returns the distinct elements of its
input with the first occurrence of each retained and first-occurrence order
preserved: the output has no duplicates, has exactly the input's elements,
is a sublist of the input (so preserves relative order), satisfies the
first-occurrence recursion (the head is kept and all its later duplicates
are dropped), and on the shape `[s1, s2, s1, s3]` with distinct identifiers
yields `[s1, s2, s3]`. -/
theorem dedup_first_occurrence (l : List String) (s1 s2 s3 : String)
    (h12 : s1 ≠ s2) (h13 : s1 ≠ s3) (h23 : s2 ≠ s3) :
    (dedupSources l).Nodup
    ∧ (∀ x, x ∈ dedupSources l ↔ x ∈ l)
    ∧ (dedupSources l).Sublist l
    ∧ (∀ (x : String) (xs : List String),
        dedupSources (x :: xs) = x :: dedupSources (xs.filter (fun y => !(y == x))))
    ∧ (∀ (sim chainDocs : List Doc) (t : String),
        ((RAGTool.retrieve sim t chainDocs).sources).Nodup)
    ∧ dedupSources [s1, s2, s1, s3] = [s1, s2, s3] := by
  refine ⟨dedupSources_nodup l, fun x => mem_dedupSources x l, dedupSources_sublist l,
    dedupSources_cons, fun sim chainDocs t => dedupSources_nodup _, ?_⟩
  rw [dedupSources_cons]
  have h1 : List.filter (fun y => !(y == s1)) [s2, s1, s3] = [s2, s3] := by
    rw [List.filter_cons_of_pos (by simp [Ne.symm h12]),
      List.filter_cons_of_neg (by simp), List.filter_cons_of_pos (by simp [Ne.symm h13]),
      List.filter_nil]
  rw [h1, dedupSources_cons]
  have h2 : List.filter (fun y => !(y == s2)) [s3] = [s3] := by
    rw [List.filter_cons_of_pos (by simp [Ne.symm h23]), List.filter_nil]
  rw [h2, dedupSources_cons]
  rfl

/-- Witness for C1 at concrete distinct identifiers. -/
theorem dedup_first_occurrence_witness :
    dedupSources ["a", "b", "a", "c"] = ["a", "b", "c"] :=
  (dedup_first_occurrence [] "a" "b" "c" (by decide) (by decide) (by decide)).2.2.2.2.2

/-- **C4**: with more than 10 articles in the feed (`10 < arts.length`),
`fetch_questions_on_latest_articles_in_IndiaSpend` passes exactly the first
10 articles, in order, to `generate_questions_batch` (the invocation log is
`[arts.take 10]`, of length exactly 10), and returns the first at most 20 of
whatever question list generation produced. -/
theorem fetch_truncates (arts : List Article) (m : GenLLM) (k : Nat)
    (h : 10 < arts.length) :
    (fetch_questions_on_latest_articles_in_IndiaSpend (FeedOutcome.success (some arts)) m k).2.1
        = [arts.take 10]
    ∧ (arts.take 10).length = 10
    ∧ (fetch_questions_on_latest_articles_in_IndiaSpend (FeedOutcome.success (some arts)) m k).1
        = FetchResult.questions ((generate_questions_batch m k (arts.take 10)).1.take 20)
    ∧ ((generate_questions_batch m k (arts.take 10)).1.take 20).length ≤ 20 := by
  cases arts with
  | nil => simp at h
  | cons a as =>
      refine ⟨rfl, ?_, rfl, List.length_take_le 20 _⟩
      rw [List.length_take]
      exact Nat.min_eq_left (Nat.le_of_lt h)

/-- Witness for C4 on a 15-article feed. -/
theorem fetch_truncates_witness :
    (fetch_questions_on_latest_articles_in_IndiaSpend
        (FeedOutcome.success (some (List.replicate 15 blankArticle))) genOkLLM 0).2.1
      = [(List.replicate 15 blankArticle).take 10]
    ∧ ((List.replicate 15 blankArticle).take 10).length = 10 :=
  ⟨(fetch_truncates (List.replicate 15 blankArticle) genOkLLM 0 (by decide)).1,
   (fetch_truncates (List.replicate 15 blankArticle) genOkLLM 0 (by decide)).2.1⟩

/-- **C5**: a feed request failing with a network error or non-2xx status
(modelled by `FeedOutcome.failure e`, `e` the exception text) makes
`fetch_questions_on_latest_articles_in_IndiaSpend` return the error dict
whose message contains the exception text, with the generation service never
invoked; the function is total (the `except` clause converts the exception
into a return value, so nothing propagates to the caller). -/
theorem fetch_failure_error (e : String) (m : GenLLM) (k : Nat) :
    (fetch_questions_on_latest_articles_in_IndiaSpend (FeedOutcome.failure e) m k).1
        = FetchResult.error ("Failed to fetch articles: " ++ e)
    ∧ containsSubstr e ("Failed to fetch articles: " ++ e) = true
    ∧ (fetch_questions_on_latest_articles_in_IndiaSpend (FeedOutcome.failure e) m k).2.1 = [] := by
  refine ⟨rfl, ?_, rfl⟩
  rw [containsSubstr, String.data_append]
  exact containsSub_append e.data "Failed to fetch articles: ".data

/-- **C6**: any exception inside the `try` of `generate_questions_batch`
(the LLM invocation raising, modelled by `Except.error`) yields the empty
question list; the function is total, so nothing propagates to the caller. -/
theorem generate_questions_batch_error_empty (m : GenLLM) (k : Nat)
    (articles : List Article) (e : String)
    (h : m.respond k (batchPrompt articles) = Except.error e) :
    (generate_questions_batch m k articles).1 = [] := by
  simp [generate_questions_batch, h]

/-- Witness for C6 with an always-raising generation service. -/
theorem generate_questions_batch_error_empty_witness :
    (generate_questions_batch genErrLLM 0 [blankArticle]).1 = [] :=
  generate_questions_batch_error_empty genErrLLM 0 [blankArticle] "boom" rfl

/-- **C7**: a feed response with an absent or empty `news` list makes
`fetch_questions_on_latest_articles_in_IndiaSpend` return `{"questions": []}`
with the generation service never invoked (empty invocation log, counter
unchanged), for every generation oracle. -/
theorem fetch_empty_news (m : GenLLM) (k : Nat) :
    fetch_questions_on_latest_articles_in_IndiaSpend (FeedOutcome.success none) m k
        = (FetchResult.questions [], [], k)
    ∧ fetch_questions_on_latest_articles_in_IndiaSpend (FeedOutcome.success (some [])) m k
        = (FetchResult.questions [], [], k) :=
  ⟨rfl, rfl⟩

/-- **C8**: on the empty article list `generate_questions_batch` builds an
empty combined prompt (`"\n".join([]) = ""`) and still issues exactly one
generation call (the counter advances by one, whether the call returns or
raises: no short-circuit before the call). -/
theorem generate_empty_articles (m : GenLLM) (k : Nat) :
    batchPrompt [] = "" ∧ (generate_questions_batch m k []).2 = k + 1 := by
  refine ⟨rfl, ?_⟩
  cases h : m.respond k (batchPrompt []) <;> simp [generate_questions_batch, h]

/-- **C10**: on every execution path
`fetch_questions_on_latest_articles_in_IndiaSpend` returns either the
error dict (one key `"error"`, a string) or the questions dict (one key
`"questions"`, a list of at most 20 strings) — `FetchResult` has exactly
those two shapes. -/
theorem fetch_result_shape (outcome : FeedOutcome) (m : GenLLM) (k : Nat) :
    (∃ e, (fetch_questions_on_latest_articles_in_IndiaSpend outcome m k).1
        = FetchResult.error e)
    ∨ (∃ qs, (fetch_questions_on_latest_articles_in_IndiaSpend outcome m k).1
        = FetchResult.questions qs ∧ qs.length ≤ 20) := by
  cases outcome with
  | failure e => exact Or.inl ⟨_, rfl⟩
  | success news =>
      cases news with
      | none => exact Or.inr ⟨[], rfl, by simp⟩
      | some arts =>
          cases arts with
          | nil => exact Or.inr ⟨[], rfl, by simp⟩
          | cons a as => exact Or.inr ⟨_, rfl, List.length_take_le 20 _⟩

/-! ## Claim theorems for src/bot.py -/

/-- **C3**: `Chatbot.should_use_rag` returns true iff the lowercased
response of the generation service to the classification prompt contains the
substring "yes", and exactly one generation call is made per decision (the
call counter advances by exactly one); the function keeps no state, so there
is no retry and no caching. -/
theorem should_use_rag_spec (m : ChatLLM) (k : Nat) (q : String) :
    (should_use_rag m k q).1
        = containsSubstr "yes"
            (strLower (m.respond k [systemMessage, humanMsg (decisionPrompt q)]))
    ∧ (should_use_rag m k q).2 = k + 1 :=
  ⟨rfl, rfl⟩

theorem graphStep_done (m : ChatLLM) (rag : String → RetrievalResult)
    (s : GraphState) (hs : s.node = Node.done) : graphStep m rag s = s := by
  obtain ⟨n, ms, c⟩ := s
  cases n with
  | agent => exact Node.noConfusion hs
  | tools => exact Node.noConfusion hs
  | done => rfl

theorem call_model_singleton (m : ChatLLM) (rag : String → RetrievalResult)
    (k : Nat) (msgs : List Message) :
    (call_model m rag k msgs).1 = [aiMsg (replyOf m rag k msgs)] := by
  by_cases h : (should_use_rag m k (lastQuery msgs)).1 = true
  · simp [call_model, replyOf, h, aiMsg]
  · simp [call_model, replyOf, h, aiMsg]

/-- **C2 counterexample**: when the decision response contains no "yes"
(so `should_use_rag` returns false) but the generation service's reply
itself begins with "Sources:", the final reply does contain the "Sources:"
text although the retrieval decision was false — the claimed equivalence
between "reply contains a Sources: footer" and "should_use_rag returned
true" fails at this concrete input. -/
theorem call_model_footer_cex :
    ¬ (containsSubstr "Sources:" (replyOf cexLLM emptyRag 0 [humanMsg "hello"]) = true
        ↔ (should_use_rag cexLLM 0 (lastQuery [humanMsg "hello"])).1 = true) := by
  decide

/-- **C2 (amended)**: when `should_use_rag` returns true, the reply emitted
by `Chatbot.call_model` is the generation response followed by the
"\n\nSources:\n" footer and the sources joined one per line — the footer is
present even when the source list is empty, with an empty body; when it
returns false, `call_model` appends no footer: the reply is exactly the raw
generation response, so it contains the text "Sources:" only if that
response itself does. -/
theorem call_model_footer (m : ChatLLM) (rag : String → RetrievalResult)
    (k : Nat) (msgs : List Message) :
    ((should_use_rag m k (lastQuery msgs)).1 = true →
      replyOf m rag k msgs
        = m.respond (k + 1)
            [systemMessage,
             humanMsg (augmentedPrompt (lastQuery msgs) (rag (lastQuery msgs)).result)]
          ++ "\n\nSources:\n" ++ String.intercalate "\n" (rag (lastQuery msgs)).sources)
    ∧ ((should_use_rag m k (lastQuery msgs)).1 = false →
      replyOf m rag k msgs = m.respond (k + 1) (systemMessage :: msgs)) := by
  constructor
  · intro h
    simp only [replyOf, call_model, h, if_true]
    rfl
  · intro h
    simp only [replyOf, call_model, h, Bool.false_eq_true, if_false]
    rfl

/-- Witness for the amended C2: with a decision response "yes" and a
retrieval result with an empty source list, the reply ends with the footer
with empty body; with a decision response "no", the reply is the raw
generation response. -/
theorem call_model_footer_witness :
    replyOf yesLLM emptyRag 0 [humanMsg "q"]
        = yesLLM.respond 1
            [systemMessage,
             humanMsg (augmentedPrompt (lastQuery [humanMsg "q"])
               (emptyRag (lastQuery [humanMsg "q"])).result)]
          ++ "\n\nSources:\n"
          ++ String.intercalate "\n" (emptyRag (lastQuery [humanMsg "q"])).sources
    ∧ replyOf noLLM emptyRag 0 [humanMsg "q"]
        = noLLM.respond 1 (systemMessage :: [humanMsg "q"]) :=
  ⟨(call_model_footer yesLLM emptyRag 0 [humanMsg "q"]).1 (by decide),
   (call_model_footer noLLM emptyRag 0 [humanMsg "q"]).2 (by decide)⟩

/-- **C9**: in every reachable execution of the compiled graph the message
emitted by the `agent` node carries no tool-call requests, so
`router_function` always selects the terminal edge: one step after entering
`agent` the graph is in the END state, and it stays there forever — the
`tools` node is never entered. -/
theorem graph_never_tools (m : ChatLLM) (rag : String → RetrievalResult)
    (k : Nat) (msgs : List Message) :
    (call_model m rag k msgs).1.map Message.tool_calls = [[]]
    ∧ router_function (msgs ++ (call_model m rag k msgs).1) = false
    ∧ (graphStep m rag ⟨Node.agent, msgs, k⟩).node = Node.done
    ∧ ∀ j : Nat, ((graphStep m rag)^[j + 1] ⟨Node.agent, msgs, k⟩).node = Node.done := by
  have hsingle := call_model_singleton m rag k msgs
  have hmap : (call_model m rag k msgs).1.map Message.tool_calls = [[]] := by
    rw [hsingle]; rfl
  have hrouter : router_function (msgs ++ (call_model m rag k msgs).1) = false := by
    rw [hsingle]
    simp [router_function, List.getLast?_concat, aiMsg]
  have hstep : (graphStep m rag ⟨Node.agent, msgs, k⟩).node = Node.done := by
    simp [graphStep, hrouter]
  refine ⟨hmap, hrouter, hstep, ?_⟩
  intro j
  rw [Function.iterate_succ_apply,
    Function.iterate_fixed (graphStep_done m rag _ hstep) j]
  exact hstep

end IndiaSpend
